import Mathlib

/-!
Shallow embedding of the chat relay (`src/api/chat.js`) and the client retry
logic (`src/src/components/companyTender/TenderChatbot.jsx`).

The relay is an edge function: it validates the request, builds a system
prompt, trims the history, calls the Gemini generation API, and maps the
outcome to an HTTP response.  We model it as a pure function taking
  - the parsed request (method, `messages`, `userType`),
  - the environment credential (`GEMINI_API_KEY`, absent or a string),
  - an oracle for the upstream call's outcome (an HTTP response or a thrown
    exception, covering fetch failure and the 50 s timeout rejection),
and returning the relay's HTTP response together with `Option GeminiRequest`:
`none` when control never reaches the upstream call, `some payload` when it
does.  JavaScript `undefined`-able values are `Option`; the JS falsy test on
strings (`undefined` or `""`) is `jsFalsy`.
-/

namespace Chat

/-- One element of the request body's `messages` array: `{role, content}`.
`role` is `Option` because the field may be absent. -/
structure ChatPair where
  role : Option String
  content : String
deriving DecidableEq, Repr, Inhabited

/-- One element of the Gemini `contents` array: `{role, parts:[{text}]}`.
Each part carries one text string, so `parts` is a list of strings. -/
structure Content where
  role : String
  parts : List String
deriving DecidableEq, Repr

/-- The JSON body of a relay response.  Each creator in `chat.js` sets a
subset of the fields `message` / `error` / `details` / `status` (the upstream
status echoed by the 502 branch, here `upstreamStatus`). -/
structure RelayBody where
  message : Option String := none
  error : Option String := none
  details : Option String := none
  upstreamStatus : Option Nat := none
deriving DecidableEq, Repr

/-- A relay HTTP response: status code plus JSON body. -/
structure RelayResponse where
  status : Nat
  body : RelayBody
deriving DecidableEq, Repr

/-- JS falsy test for a possibly-absent string: `undefined` and `""` are
falsy, every other string is truthy. -/
def jsFalsy : Option String → Bool
  | none => true
  | some s => s = ""

/-- `methodNotAllowedResponse` (chat.js line 43). -/
def methodNotAllowedResponse : RelayResponse :=
  ⟨405, { error := some "Method not allowed, use POST" }⟩

/-- `configurationErrorResponse` (chat.js line 50). -/
def configurationErrorResponse : RelayResponse :=
  ⟨500, { error := some "Configuration error",
          details := some "API key is not configured properly" }⟩

/-- `isValidRequest(messages)` (chat.js line 60):
`messages && Array.isArray(messages) && messages.length > 0`.  A parsed JSON
field is either absent (`none`, falsy) or an array (`some l`); validity then
reduces to presence and non-emptiness. -/
def isValidRequest : Option (List ChatPair) → Bool
  | none => false
  | some l => l.length > 0

/-- `invalidRequestResponse` (chat.js line 64). -/
def invalidRequestResponse : RelayResponse :=
  ⟨400, { error := some "Invalid request format",
          details := some "Messages array is required" }⟩

/-- `createSystemPrompt(userType)` (chat.js line 71): two fixed template
literals selected by `userType === 'company'`. -/
def createSystemPrompt (userType : Option String) : String :=
  if userType = some "company" then
    "You are an AI assistant for a construction company that manages tenders.\n       Help users manage their tender submissions, track active bids, and analyze performance metrics.\n       Be professional and knowledgeable about the construction tender process from a company's perspective.\n       Provide specific examples and actionable advice when possible.\n       Keep your responses concise, practical, and focused on tender management."
  else
    "You are an AI assistant for clients looking for construction services.\n       Help users find suitable tenders, understand bidding processes, and navigate construction opportunities.\n       Focus on helping clients find the right projects and submit competitive bids.\n       Provide specific examples and actionable advice when possible.\n       Keep your responses concise, practical, and focused on finding and managing construction tenders."

/-- The per-message map inside `formatConversationHistory` (chat.js line 86):
`{role: msg.role === 'assistant' ? 'model' : 'user', parts: [{text: msg.content}]}`. -/
def formatMsg (msg : ChatPair) : Content :=
  { role := if msg.role = some "assistant" then "model" else "user",
    parts := [msg.content] }

/-- `Array.prototype.slice(-n)`: the suffix of the last `n` elements (the
whole array when it is shorter than `n`). -/
def sliceLast (n : Nat) (l : List α) : List α :=
  l.drop (l.length - n)

/-- `formatConversationHistory(messages)` (chat.js line 85): map each message
to Gemini form, then keep only the last 5. -/
def formatConversationHistory (messages : List ChatPair) : List Content :=
  let conversationHistory := messages.map formatMsg
  sliceLast 5 conversationHistory

/-- `createApiUrl()` (chat.js line 94). -/
def createApiUrl (key : String) : String :=
  "https://generativelanguage.googleapis.com/v1beta/models/gemini-pro:generateContent?key=" ++ key

/-- The request body built by `callGeminiApi` (chat.js lines 108-125):
the synthesized system-prompt turn (role `'user'`) followed by the limited
history.  `generationConfig` and `safetySettings` are fixed literals with no
request-dependent data and are not modelled. -/
structure GeminiRequest where
  contents : List Content
deriving DecidableEq, Repr

/-- The `contents` assembly of `callGeminiApi` (chat.js lines 109-112). -/
def callGeminiApiPayload (systemPrompt : String) (limitedHistory : List Content) : GeminiRequest :=
  { contents := { role := "user", parts := [systemPrompt] } :: limitedHistory }

/-- One element of a Gemini `parts` array; `text` may be absent. -/
structure GeminiPart where
  text : Option String := none
deriving DecidableEq, Repr

/-- A Gemini candidate's `content`; `parts` may be absent. -/
structure GeminiContent where
  parts : Option (List GeminiPart) := none
deriving DecidableEq, Repr

/-- One element of a Gemini `candidates` array; `content` may be absent. -/
structure GeminiCandidate where
  content : Option GeminiContent := none
deriving DecidableEq, Repr

/-- The `error` object of a Gemini response body; `message` may be absent. -/
structure GeminiError where
  message : Option String := none
deriving DecidableEq, Repr

/-- The parsed JSON body of a Gemini response. -/
structure GeminiData where
  error : Option GeminiError := none
  candidates : Option (List GeminiCandidate) := none
deriving DecidableEq, Repr

/-- An upstream HTTP response as `handleApiResponse` consumes it: the status,
the body read as text (`response.text()`, used on the non-ok branch) and the
body parsed as JSON (`response.json()`, used on the ok branch). -/
structure UpstreamResp where
  status : Nat
  textBody : String
  data : GeminiData
deriving DecidableEq, Repr

/-- Outcome of the upstream call as seen by the handler: either a response
object, or a thrown exception (fetch failure, the 50 s timeout rejection, or
a body-parse failure) identified by its message, which the handler's `catch`
passes to `handleError`. -/
inductive UpstreamResult where
  | resp (r : UpstreamResp)
  | thrown (msg : String)
deriving DecidableEq, Repr

/-- `Response.ok`: status in the inclusive range 200-299. -/
def respOk (status : Nat) : Bool :=
  200 ≤ status ∧ status ≤ 299

/-- The optional chain `data.candidates?.[0]?.content?.parts?.[0]?.text`
(chat.js line 178): `none` when any link is absent. -/
def extractText (d : GeminiData) : Option String :=
  match d.candidates with
  | none => none
  | some cs =>
    match cs.head? with
    | none => none
    | some c =>
      match c.content with
      | none => none
      | some ct =>
        match ct.parts with
        | none => none
        | some ps =>
          match ps.head? with
          | none => none
          | some p => p.text

/-- The fixed fallback used when no text is extractable (chat.js line 181). -/
def fallbackMessage : String :=
  "I'm sorry, I couldn't generate a response at the moment."

/-- `handleApiResponse(response)` (chat.js line 147): 502 on a non-ok status
(echoing the upstream status and text body), 500 on an ok body carrying an
`error` field (`error.message || 'Unknown AI service error'` as details), and
otherwise 200 with the extracted text, substituting `fallbackMessage` when the
extracted text is absent or empty (the falsy test `!responseText`). -/
def handleApiResponse (r : UpstreamResp) : RelayResponse :=
  if respOk r.status = false then
    ⟨502, { error := some "AI service error",
            upstreamStatus := some r.status,
            details := some r.textBody }⟩
  else
    match r.data.error with
    | some e =>
      ⟨500, { error := some "AI service error",
              details := some (if jsFalsy e.message then "Unknown AI service error"
                               else e.message.getD "") }⟩
    | none =>
      let responseText :=
        if jsFalsy (extractText r.data) then fallbackMessage
        else (extractText r.data).getD ""
      ⟨200, { message := some responseText }⟩

/-- `pat` occurs at the start of the character list. -/
def charsStartWith : List Char → List Char → Bool
  | [], _ => true
  | _ :: _, [] => false
  | a :: as, b :: bs => a = b ∧ charsStartWith as bs

/-- `pat` occurs somewhere in the character list. -/
def charsInclude (pat : List Char) : List Char → Bool
  | [] => pat.isEmpty
  | b :: bs => charsStartWith pat (b :: bs) ∨ charsInclude pat bs

/-- `String.prototype.includes`: substring containment. -/
def jsIncludes (s pat : String) : Bool :=
  charsInclude pat.data s.data

/-- `handleError(error)` (chat.js line 194): 504 when the message is truthy
and contains `'timeout'`, else 500 with `error.message || 'Unknown error'` as
details.  An absent message behaves as `""` (both falsy). -/
def handleError (msg : String) : RelayResponse :=
  if msg ≠ "" ∧ jsIncludes msg "timeout" = true then
    ⟨504, { error := some "Request timed out",
            details := some "The AI service took too long to respond" }⟩
  else
    ⟨500, { error := some "Failed to process request",
            details := some (if msg = "" then "Unknown error" else msg) }⟩

/-- A parsed relay request: the HTTP method plus the two body fields the
handler destructures (`messages`, `userType`). -/
structure RelayRequest where
  method : String
  messages : Option (List ChatPair)
  userType : Option String
deriving DecidableEq, Repr

/-- The handler (chat.js line 2), with the upstream outcome supplied as an
oracle.  Returns the relay response and `some payload` exactly when control
reached the upstream call (else `none`).  Mirrors the source order: method
check, credential check, validation, prompt, history, call, response
handling; thrown upstream outcomes land in the `catch` and go through
`handleError`. -/
def handler (req : RelayRequest) (apiKey : Option String) (upstream : UpstreamResult) :
    RelayResponse × Option GeminiRequest :=
  if req.method ≠ "POST" then (methodNotAllowedResponse, none)
  else if jsFalsy apiKey then (configurationErrorResponse, none)
  else if isValidRequest req.messages = false then (invalidRequestResponse, none)
  else
    let systemPrompt := createSystemPrompt req.userType
    let limitedHistory := formatConversationHistory (req.messages.getD [])
    let payload := callGeminiApiPayload systemPrompt limitedHistory
    match upstream with
    | .resp r => (handleApiResponse r, some payload)
    | .thrown msg => (handleError msg, some payload)

/-- A client-side chat message (`TenderChatbot.jsx`): role, content,
timestamp, and the `isError` flag (absent means `false`). -/
structure ChatMsg where
  role : String
  content : String
  timestamp : Nat
  isError : Bool := false
deriving DecidableEq, Repr, Inhabited

/-- The component state touched by sending and retrying: `messages`,
`inputValue`, `isTyping`, and `lastError` (the stored error, kept only as its
message since retry merely tests its presence). -/
structure ClientState where
  messages : List ChatMsg
  inputValue : String
  isTyping : Bool
  lastError : Option String
deriving DecidableEq, Repr

/-- `Array.prototype.findIndex`, as `Option Nat` (`none` for -1). -/
def jsFindIndex (p : ChatMsg → Bool) : List ChatMsg → Option Nat
  | [] => none
  | m :: rest => if p m then some 0 else (jsFindIndex p rest).map (· + 1)

/-- `String.prototype.trim`: strip leading and trailing whitespace. -/
def jsTrim (s : String) : String :=
  ⟨((s.data.dropWhile Char.isWhitespace).reverse.dropWhile Char.isWhitespace).reverse⟩

/-- The synchronous prefix of `handleSendMessage(content)`
(TenderChatbot.jsx lines 58-71): return unchanged when `content.trim()` is
empty; otherwise append the user message, clear the input, set the typing
flag, clear `lastError`.  The second component is the content resubmitted to
the relay (`none` when the guard returned early). -/
def handleSendMessageStart (content : String) (now : Nat) (st : ClientState) :
    ClientState × Option String :=
  if jsTrim content = "" then (st, none)
  else
    ({ st with
        messages := st.messages ++ [{ role := "user", content := content, timestamp := now }],
        inputValue := "",
        isTyping := true,
        lastError := none },
     some content)

/-- `retryLastMessage()` (TenderChatbot.jsx lines 39-56): no-op without a
stored error; find the most recent user message via
`[...messages].reverse().findIndex(msg => msg.role === 'user')` and index
arithmetic; drop every `isError` message; resubmit that content through
`handleSendMessage`; clear the error state. -/
def retryLastMessage (now : Nat) (st : ClientState) : ClientState × Option String :=
  if st.lastError.isNone then (st, none)
  else
    match jsFindIndex (fun m => m.role = "user") st.messages.reverse with
    | none => (st, none)
    | some i =>
      let lastUserMessage := st.messages.getD (st.messages.length - 1 - i) default
      let st1 := { st with messages := st.messages.filter (fun m => m.isError = false) }
      let sent := handleSendMessageStart lastUserMessage.content now st1
      ({ sent.1 with lastError := none }, sent.2)

/-- The most recent user turn of a history: the specification-side reading of
"the last user Turn". -/
def lastUserTurn (msgs : List ChatMsg) : Option ChatMsg :=
  msgs.reverse.find? (fun m => m.role = "user")

/-- C1 (counterexample): a POST request with an empty `messages` array is
not answered 400 `Invalid request format` when the credential is unset — the
handler checks `GEMINI_API_KEY` before validating the body and answers 500
`Configuration error` instead, so the claim as stated is false. -/
theorem invalid_request_beaten_by_key_check :
    (handler ⟨"POST", some [], some "company"⟩ none (.thrown "x")).1.status = 500 ∧
    (handler ⟨"POST", some [], some "company"⟩ none (.thrown "x")).1.body.error
      = some "Configuration error" ∧
    ¬ (handler ⟨"POST", some [], some "company"⟩ none (.thrown "x")).1.status = 400 := by
  decide

/-- C1 (amended): for every POST request with the credential configured
(non-falsy) whose body has an empty `messages` array or none at all, the
relay answers 400 with error text `Invalid request format`, and the upstream
generation API is never called. -/
theorem invalid_request_rejected (req : RelayRequest) (key : Option String)
    (up : UpstreamResult) (hm : req.method = "POST") (hk : jsFalsy key = false)
    (hmsgs : req.messages = none ∨ req.messages = some []) :
    (handler req key up).1.status = 400 ∧
    (handler req key up).1.body.error = some "Invalid request format" ∧
    (handler req key up).2 = none := by
  have hv : isValidRequest req.messages = false := by
    rcases hmsgs with h | h <;> simp [h, isValidRequest]
  simp [handler, hm, hk, hv, invalidRequestResponse]

/-- C1 (witness): the amended theorem applied to a concrete empty-history
POST request with a configured key. -/
theorem invalid_request_rejected_witness :
    (handler ⟨"POST", some [], some "client"⟩ (some "k") (.thrown "x")).1.status = 400 ∧
    (handler ⟨"POST", some [], some "client"⟩ (some "k") (.thrown "x")).1.body.error
      = some "Invalid request format" ∧
    (handler ⟨"POST", some [], some "client"⟩ (some "k") (.thrown "x")).2 = none :=
  invalid_request_rejected ⟨"POST", some [], some "client"⟩ (some "k") (.thrown "x")
    rfl (by decide) (Or.inr rfl)

/-- C2: for every POST relay request handled while the credential is unset,
the relay answers 500 with a `Configuration error` body and the upstream
generation API is never called. -/
theorem unset_key_configuration_error (req : RelayRequest) (up : UpstreamResult)
    (hm : req.method = "POST") :
    (handler req none up).1.status = 500 ∧
    (handler req none up).1.body.error = some "Configuration error" ∧
    (handler req none up).1.body.details = some "API key is not configured properly" ∧
    (handler req none up).2 = none := by
  simp [handler, hm, jsFalsy, configurationErrorResponse]

/-- C2 (witness): the theorem applied to a concrete POST request with the
key unset. -/
theorem unset_key_configuration_error_witness :
    (handler ⟨"POST", some [⟨some "user", "Hi"⟩], some "company"⟩ none (.thrown "x")).1.status = 500 ∧
    (handler ⟨"POST", some [⟨some "user", "Hi"⟩], some "company"⟩ none (.thrown "x")).1.body.error
      = some "Configuration error" ∧
    (handler ⟨"POST", some [⟨some "user", "Hi"⟩], some "company"⟩ none (.thrown "x")).1.body.details
      = some "API key is not configured properly" ∧
    (handler ⟨"POST", some [⟨some "user", "Hi"⟩], some "company"⟩ none (.thrown "x")).2 = none :=
  unset_key_configuration_error ⟨"POST", some [⟨some "user", "Hi"⟩], some "company"⟩ (.thrown "x") rfl

/-- C3: text extraction round-trip.  An ok upstream body
`{candidates:[{content:{parts:[{text:"Hello"}]}}]}` yields a 200 response
with body `{message:"Hello"}`; an ok body `{candidates:[]}` yields a 200
response whose message is the fixed fallback string, not an error
response. -/
theorem response_text_round_trip :
    handleApiResponse
        ⟨200, "", { error := none,
                    candidates := some [{ content := some { parts := some [{ text := some "Hello" }] } }] }⟩
      = ⟨200, { message := some "Hello" }⟩ ∧
    handleApiResponse ⟨200, "", { error := none, candidates := some [] }⟩
      = ⟨200, { message := some fallbackMessage }⟩ ∧
    fallbackMessage = "I'm sorry, I couldn't generate a response at the moment." := by
  decide

/-- C4: for every input history, the window submitted upstream (beyond the
synthesized system-prompt turn) has length at most 5, the code's bound. -/
theorem window_length_le_five (messages : List ChatPair) :
    (formatConversationHistory messages).length ≤ 5 := by
  simp [formatConversationHistory, sliceLast]
  omega

/-- C6 (counterexample): an exception whose message contains `timeout` is
not mapped to 500 `Failed to process request` — `handleError` answers 504
`Request timed out` for it, so the claim's "whatever its message" is false. -/
theorem handle_error_timeout_branch :
    handleError "Request timeout after 50 seconds"
      = ⟨504, { error := some "Request timed out",
                details := some "The AI service took too long to respond" }⟩ ∧
    ¬ (handleError "Request timeout after 50 seconds").body.error
        = some "Failed to process request" := by
  decide

/-- C6 (amended): for every exception caught at the top-level handler whose
message does not contain `timeout`, the relay answers 500 with error text
`Failed to process request` and carries the exception's message in `details`
(substituting `Unknown error` when the message is empty). -/
theorem handle_error_default_branch (msg : String)
    (h : jsIncludes msg "timeout" = false) :
    (handleError msg).status = 500 ∧
    (handleError msg).body.error = some "Failed to process request" ∧
    (handleError msg).body.details = some (if msg = "" then "Unknown error" else msg) := by
  simp [handleError, h]

/-- C6 (witness): the amended theorem applied to a concrete non-timeout
message. -/
theorem handle_error_default_branch_witness :
    (handleError "boom").status = 500 ∧
    (handleError "boom").body.error = some "Failed to process request" ∧
    (handleError "boom").body.details = some (if "boom" = "" then "Unknown error" else "boom") :=
  handle_error_default_branch "boom" (by decide)

/-- C5: for every valid non-empty history, the `contents` array submitted
upstream is exactly the synthesized system-prompt turn consed onto the
formatted history window — one synthesized turn, at position 0 — and every
other element of the submitted array is the image of an input message under
`formatMsg`, not a synthesized system-prompt turn. -/
theorem system_prompt_position_zero (ut : Option String) (msgs : List ChatPair)
    (_h : msgs ≠ []) :
    (callGeminiApiPayload (createSystemPrompt ut) (formatConversationHistory msgs)).contents
      = { role := "user", parts := [createSystemPrompt ut] } :: formatConversationHistory msgs ∧
    ∀ c ∈ formatConversationHistory msgs, ∃ m ∈ msgs, c = formatMsg m := by
  refine ⟨rfl, ?_⟩
  intro c hc
  simp only [formatConversationHistory, sliceLast] at hc
  have hc' : c ∈ msgs.map formatMsg := List.drop_subset _ _ hc
  obtain ⟨m, hm, rfl⟩ := List.mem_map.mp hc'
  exact ⟨m, hm, rfl⟩

/-- C5 (witness): the theorem applied to a concrete one-message history. -/
theorem system_prompt_position_zero_witness :
    (callGeminiApiPayload (createSystemPrompt (some "company"))
        (formatConversationHistory [⟨some "user", "Hello"⟩])).contents
      = { role := "user", parts := [createSystemPrompt (some "company")] }
          :: formatConversationHistory [⟨some "user", "Hello"⟩] :=
  (system_prompt_position_zero (some "company") [⟨some "user", "Hello"⟩] (by decide)).1

/-- C10: every role sent upstream is drawn from the vocabulary
`{model, user}`: role `assistant` maps to `model`, and every other role
value — `system`, an unknown string, or a missing role — maps to `user`;
consequently every element of the formatted window carries one of the two
roles. -/
theorem role_vocabulary (m : ChatPair) (msgs : List ChatPair) :
    ((formatMsg m).role = "model" ∨ (formatMsg m).role = "user") ∧
    (m.role = some "assistant" → (formatMsg m).role = "model") ∧
    (m.role ≠ some "assistant" → (formatMsg m).role = "user") ∧
    ∀ c ∈ formatConversationHistory msgs, c.role = "model" ∨ c.role = "user" := by
  refine ⟨?_, ?_, ?_, ?_⟩
  · by_cases h : m.role = some "assistant" <;> simp [formatMsg, h]
  · intro h; simp [formatMsg, h]
  · intro h; simp [formatMsg, h]
  · intro c hc
    simp only [formatConversationHistory, sliceLast] at hc
    obtain ⟨m', _, rfl⟩ := List.mem_map.mp (List.drop_subset _ _ hc)
    by_cases h : m'.role = some "assistant" <;> simp [formatMsg, h]

/-- C10 (witness): the theorem applied to a concrete `assistant` message and
a concrete mixed history. -/
theorem role_vocabulary_witness :
    (formatMsg ⟨some "assistant", "x"⟩).role = "model" :=
  (role_vocabulary ⟨some "assistant", "x"⟩ [⟨some "system", "y"⟩]).2.1 rfl

/-- C8: requests differing only in `userType` (`company` vs `client`) get
different synthesized system-prompt strings, and the handling is otherwise
identical: for the same upstream outcome the relay responses are equal, and
the upstream payload of the `client` run is the `company` run's payload with
only the position-0 system-prompt turn replaced (in particular both runs
call or skip the upstream together). -/
theorem user_type_changes_only_prompt :
    createSystemPrompt (some "company") ≠ createSystemPrompt (some "client") ∧
    ∀ (method : String) (msgs : Option (List ChatPair)) (key : Option String)
      (up : UpstreamResult),
      (handler ⟨method, msgs, some "company"⟩ key up).1
        = (handler ⟨method, msgs, some "client"⟩ key up).1 ∧
      (handler ⟨method, msgs, some "client"⟩ key up).2
        = (handler ⟨method, msgs, some "company"⟩ key up).2.map
            (fun g => { g with contents :=
              { role := "user", parts := [createSystemPrompt (some "client")] }
                :: g.contents.tail }) := by
  refine ⟨by decide, ?_⟩
  intro method msgs key up
  by_cases h1 : method ≠ "POST"
  · simp [handler, h1]
  · by_cases h2 : jsFalsy key
    · simp [handler, h1, h2]
    · by_cases h3 : isValidRequest msgs = false
      · simp [handler, h1, h2, h3]
      · cases up with
        | resp r => simp [handler, h1, h2, h3, callGeminiApiPayload]
        | thrown m => simp [handler, h1, h2, h3, callGeminiApiPayload]

/-- C8 (witness): the handling-identical part applied to a concrete request
pair. -/
theorem user_type_changes_only_prompt_witness :
    (handler ⟨"POST", some [⟨some "user", "Hi"⟩], some "company"⟩ (some "k") (.thrown "x")).1
      = (handler ⟨"POST", some [⟨some "user", "Hi"⟩], some "client"⟩ (some "k") (.thrown "x")).1 :=
  (user_type_changes_only_prompt.2 "POST" (some [⟨some "user", "Hi"⟩]) (some "k") (.thrown "x")).1

/-- C9: every 200 response the relay produces carries a present, non-empty
`message`: the only 200 branch substitutes the fixed fallback whenever the
extracted upstream text is absent or empty. -/
theorem success_message_nonempty (req : RelayRequest) (key : Option String)
    (up : UpstreamResult) (h : (handler req key up).1.status = 200) :
    (handler req key up).1.body.message ≠ none ∧
    (handler req key up).1.body.message ≠ some "" := by
  by_cases h1 : req.method ≠ "POST"
  · simp [handler, h1, methodNotAllowedResponse] at h
  · by_cases h2 : jsFalsy key
    · simp [handler, h1, h2, configurationErrorResponse] at h
    · by_cases h3 : isValidRequest req.messages = false
      · simp [handler, h1, h2, h3, invalidRequestResponse] at h
      · cases up with
        | thrown m =>
          simp only [handler, if_neg h1, if_neg h2, if_neg h3] at h ⊢
          unfold handleError at h ⊢
          split at h <;> simp_all
        | resp r =>
          simp only [handler, if_neg h1, if_neg h2, if_neg h3] at h ⊢
          by_cases hok : respOk r.status = false
          · simp [handleApiResponse, hok] at h
          · cases herr : r.data.error with
            | some e => simp [handleApiResponse, hok, herr] at h
            | none =>
              by_cases hf : jsFalsy (extractText r.data)
              · simp only [handleApiResponse, if_neg hok, herr, if_pos hf]
                refine ⟨by simp, by simp [fallbackMessage]⟩
              · cases het : extractText r.data with
                | none => simp [jsFalsy, het] at hf
                | some t =>
                  rw [het] at hf
                  have ht : ¬ t = "" := by simpa [jsFalsy] using hf
                  simp only [handleApiResponse, if_neg hok, herr, het]
                  rw [if_neg hf]
                  simpa using ht

/-- C9 (witness): the theorem applied to a concrete request that reaches a
200 response. -/
theorem success_message_nonempty_witness :
    (handler ⟨"POST", some [⟨some "user", "Hi"⟩], some "company"⟩ (some "k")
        (.resp ⟨200, "", { error := none, candidates := some [{ content := some { parts := some [{ text := some "Hello" }] } }] }⟩)).1.body.message
      ≠ none ∧
    (handler ⟨"POST", some [⟨some "user", "Hi"⟩], some "company"⟩ (some "k")
        (.resp ⟨200, "", { error := none, candidates := some [{ content := some { parts := some [{ text := some "Hello" }] } }] }⟩)).1.body.message
      ≠ some "" :=
  success_message_nonempty ⟨"POST", some [⟨some "user", "Hi"⟩], some "company"⟩ (some "k")
    (.resp ⟨200, "", { error := none, candidates := some [{ content := some { parts := some [{ text := some "Hello" }] } }] }⟩)
    (by decide)

/-- When `findIndex` reports no hit, `find?` agrees. -/
theorem jsFindIndex_none (p : ChatMsg → Bool) (l : List ChatMsg)
    (h : jsFindIndex p l = none) : l.find? p = none := by
  induction l with
  | nil => rfl
  | cons m rest ih =>
    cases hp : p m with
    | true => simp [jsFindIndex, hp] at h
    | false =>
      simp only [jsFindIndex, hp, Bool.false_eq_true, if_false, Option.map_eq_none'] at h
      simp only [List.find?_cons, hp]
      exact ih h

/-- When `findIndex` reports index `i`, the index is in range and `find?`
returns the element sitting there. -/
theorem jsFindIndex_some (p : ChatMsg → Bool) (l : List ChatMsg) (i : Nat)
    (h : jsFindIndex p l = some i) :
    i < l.length ∧ l.find? p = some (l.getD i default) := by
  induction l generalizing i with
  | nil => simp [jsFindIndex] at h
  | cons m rest ih =>
    cases hp : p m with
    | true =>
      simp only [jsFindIndex, hp, if_true, Option.some.injEq] at h
      subst h
      simp [List.find?_cons, hp]
    | false =>
      simp only [jsFindIndex, hp, Bool.false_eq_true, if_false, Option.map_eq_some'] at h
      obtain ⟨j, hj, rfl⟩ := h
      obtain ⟨hlt, hfind⟩ := ih j hj
      refine ⟨by simp only [List.length_cons]; omega, ?_⟩
      simp only [List.find?_cons, hp, List.getD_cons_succ]
      exact hfind

/-- Indexing from the back equals indexing the reversed list. -/
theorem getD_reverse_index {α : Type _} (l : List α) (i : Nat) (h : i < l.length) (d : α) :
    l.getD (l.length - 1 - i) d = l.reverse.getD i d := by
  rw [List.getD_eq_getElem?_getD, List.getD_eq_getElem?_getD, List.getElem?_reverse h]

/-- C7: in a session state holding a stored error and at least one user
turn whose content survives trimming, invoking retry resubmits exactly the
content of the most recent user turn unchanged, and the visible history
after retry contains no turn flagged `isError` (the prior error turns are
filtered out, not duplicated). -/
theorem retry_resubmits_last_user_turn (st : ClientState) (now : Nat) (u : ChatMsg)
    (herr : st.lastError.isSome)
    (hu : lastUserTurn st.messages = some u)
    (htrim : ¬ jsTrim u.content = "") :
    (retryLastMessage now st).2 = some u.content ∧
    ∀ m ∈ (retryLastMessage now st).1.messages, m.isError = false := by
  have hne : st.lastError.isNone = false := by
    cases hle : st.lastError <;> simp_all
  cases hidx : jsFindIndex (fun m => m.role = "user") st.messages.reverse with
  | none =>
    exfalso
    have hnone := jsFindIndex_none _ _ hidx
    rw [lastUserTurn, hnone] at hu
    exact Option.noConfusion hu
  | some i =>
    obtain ⟨hlt, hfind⟩ := jsFindIndex_some _ _ i hidx
    have hrevlen : i < st.messages.length := by simpa using hlt
    have hu' : st.messages.reverse.getD i default = u := by
      rw [lastUserTurn, hfind] at hu
      exact Option.some.inj hu
    have hidxeq : st.messages.getD (st.messages.length - 1 - i) default = u :=
      (getD_reverse_index st.messages i hrevlen default).trans hu'
    constructor
    · simp only [retryLastMessage, hne, Bool.false_eq_true, if_false, hidx, hidxeq,
        handleSendMessageStart, if_neg htrim]
    · intro m hm
      simp only [retryLastMessage, hne, Bool.false_eq_true, if_false, hidx, hidxeq,
        handleSendMessageStart, if_neg htrim] at hm
      simp only [List.mem_append, List.mem_filter, List.mem_singleton] at hm
      rcases hm with ⟨_, hflag⟩ | rfl
      · simpa using hflag
      · rfl

/-- C7 (witness): the theorem applied to a concrete session whose history is
a greeting, a user turn `Hi`, and a flagged error turn. -/
theorem retry_resubmits_last_user_turn_witness :
    (retryLastMessage 3
        ⟨[⟨"assistant", "hi", 0, false⟩, ⟨"user", "Hi", 1, false⟩,
          ⟨"assistant", "oops", 2, true⟩], "", false, some "err"⟩).2 = some "Hi" :=
  (retry_resubmits_last_user_turn
    ⟨[⟨"assistant", "hi", 0, false⟩, ⟨"user", "Hi", 1, false⟩,
      ⟨"assistant", "oops", 2, true⟩], "", false, some "err"⟩
    3 ⟨"user", "Hi", 1, false⟩ (by decide) (by decide) (by decide)).1

end Chat
